import Mathlib

/-!
# Verification of the OCEL 2.0 → Unity Catalog flattener

A shallow embedding of the repository `ocel-2.0-event-log-analysis`:

* `src/utils/write_ocel_to_uc_schema.py` — class `OCELUCSchema`, which unnests an
  OCEL 2.0 JSON document into eight relational tables;
* `src/utils/ocel2_uc_importer.py` — class `OCEL2UCImporter` with `parse_uc_file_path`,
  `set_uc_file_path` and `download_file`;
* `src/ingest/download_ocel_to_uc_volume.py` — the standalone `download_file` fetcher.

Python dictionaries coming from `json.load` are embedded as structures whose fields are
`Option`-valued: `none` models an absent key.  Subscript access `d['k']` is `pyGetKey`
(raising `KeyError` when the key is absent); `d.get('k', default)` is `pyGetDefault`.
A Python `for` loop that builds a row list but may raise inside the body is `exceptMap`
(left-to-right, aborting at the first raised exception), followed by `List.flatten` for
nested loops.  Spark's `createDataFrame(rows)` without an explicit schema raises a
`ValueError` on an empty row list ("can not infer schema from empty dataset"); with an
explicit schema it accepts the empty list.  `saveAsTable` always succeeds in the model
(storage faults are out of scope); a table write is recorded in a `TableStore`.
-/

/-- Python exceptions that the embedded code can raise. -/
inductive PyErr where
  | keyError (key : String)
  | valueError (msg : String)
  | attributeError (attr : String)
  | nameError (name : String)
  | requestError (url : String)
deriving DecidableEq, Repr

/-- JSON attribute values as Python `json.load` delivers them: strings, integers,
booleans and null.  Non-integer JSON numbers become Python floats, whose shortest-repr
rendering is floating-point behaviour outside this model; no claim here depends on how a
number renders, only on what `str` does to an already-rendered string. -/
inductive JValue where
  | jstr (s : String)
  | jint (n : Int)
  | jbool (b : Bool)
  | jnull
deriving DecidableEq, Repr

/-- Python `str(...)` on an embedded JSON value (`str()` of a `str` is the identity,
`str(True)`/`str(False)` capitalise, `str(None) = "None"`). -/
def pyStr : JValue → String
  | .jstr s => s
  | .jint n => toString n
  | .jbool b => if b then "True" else "False"
  | .jnull => "None"

/-- `d['k']`: subscript access on a dictionary, `KeyError` when absent. -/
def pyGetKey {α : Type} (field : Option α) (key : String) : Except PyErr α :=
  match field with
  | some v => .ok v
  | none => .error (.keyError key)

/-- `d.get('k', default)`: dictionary access with a default. -/
def pyGetDefault {α : Type} (field : Option α) (default : α) : α :=
  field.getD default

/-- A Python `for x in xs:` loop appending one row per element, where the body may
raise: left-to-right, stopping at the first exception. -/
def exceptMap {α β : Type} (f : α → Except PyErr β) : List α → Except PyErr (List β)
  | [] => .ok []
  | x :: xs =>
    match f x with
    | .error e => .error e
    | .ok y =>
      match exceptMap f xs with
      | .error e => .error e
      | .ok ys => .ok (y :: ys)

/-- `spark.createDataFrame(rows)` without an explicit schema: raises `ValueError` when
`rows` is empty (Spark cannot infer a schema from an empty dataset). -/
def createDataFrame {ρ : Type} (rows : List ρ) : Except PyErr (List ρ) :=
  if rows.isEmpty then .error (.valueError "can not infer schema from empty dataset")
  else .ok rows

/-- `spark.createDataFrame([], schema)` with an explicit `StructType` schema: accepts
the empty row list. -/
def createDataFrameWithSchema {ρ : Type} (rows : List ρ) : Except PyErr (List ρ) :=
  .ok rows

/-! ## The OCEL 2.0 document, as the flattener reads it -/

/-- One entry of an objectTypes/eventTypes `attributes` array: `{'name': …, 'type': …}`. -/
structure TypeAttr where
  name : Option String
  type : Option String
deriving DecidableEq, Repr

/-- One entry of `objectTypes` or `eventTypes`: a name and an optional `attributes` array. -/
structure TypeDecl where
  name : Option String
  attributes : Option (List TypeAttr)
deriving DecidableEq, Repr

/-- One entry of an object's or event's `attributes` array:
`{'name': …, 'value': …, 'time': …}` (the events builder ignores `time`). -/
structure AttrEntry where
  name : Option String
  value : Option JValue
  time : Option String
deriving DecidableEq, Repr

/-- One entry of a `relationships` array: `{'objectId': …, 'qualifier': …}`. -/
structure RelEntry where
  objectId : Option String
  qualifier : Option String
deriving DecidableEq, Repr

/-- One entry of the top-level `objects` array. -/
structure OcelObject where
  id : Option String
  type : Option String
  attributes : Option (List AttrEntry)
  relationships : Option (List RelEntry)
deriving DecidableEq, Repr

/-- One entry of the top-level `events` array. -/
structure OcelEvent where
  id : Option String
  type : Option String
  time : Option String
  attributes : Option (List AttrEntry)
  relationships : Option (List RelEntry)
deriving DecidableEq, Repr

/-- The parsed OCEL 2.0 JSON document (`ocel_data` in the source). -/
structure OcelData where
  objectTypes : Option (List TypeDecl)
  eventTypes : Option (List TypeDecl)
  objects : Option (List OcelObject)
  events : Option (List OcelEvent)
deriving DecidableEq, Repr

/-! ## Row types of the eight output tables -/

/-- Row of `object_types` (also of `event_types`, which has the same shape). -/
structure TypeRow where
  type_name : String
  attribute_name : String
  attribute_type : String
deriving DecidableEq, Repr

/-- Row of `objects`: object_id, object_type. -/
structure ObjectRow where
  object_id : String
  object_type : String
deriving DecidableEq, Repr

/-- Row of `object_attributes`: object_id, attribute_name, attribute_value (stringified),
attribute_time (nullable, from `attr.get('time')`). -/
structure ObjectAttributeRow where
  object_id : String
  attribute_name : String
  attribute_value : String
  attribute_time : Option String
deriving DecidableEq, Repr

/-- Row of `object_relationships`: source_object_id, target_object_id, qualifier. -/
structure ObjectRelationshipRow where
  source_object_id : String
  target_object_id : String
  qualifier : String
deriving DecidableEq, Repr

/-- Row of `events`: event_id, event_type, event_time. -/
structure EventRow where
  event_id : String
  event_type : String
  event_time : String
deriving DecidableEq, Repr

/-- Row of `event_attributes`: event_id, attribute_name, attribute_value (stringified). -/
structure EventAttributeRow where
  event_id : String
  attribute_name : String
  attribute_value : String
deriving DecidableEq, Repr

/-- Row of `event_object_relationships`: event_id, object_id, qualifier. -/
structure EventObjectRelationshipRow where
  event_id : String
  object_id : String
  qualifier : String
deriving DecidableEq, Repr

/-! ## Row extraction, method by method

Each `_create_and_load_*_table` method first builds its row list by iterating the
document (raising `KeyError` at a missing required key), then creates a DataFrame and
writes the table.  Inner loops are factored into per-element helpers; the method-level
definition joins them and applies the DataFrame step exactly as the source does. -/

/-- Inner loop of `_create_and_load_object_types_table` / `_create_and_load_event_types_table`
for one type declaration: `type_name = obj_type['name']`, then
`for attr in obj_type['attributes']` — note the subscript (not `.get`): a declaration
without an `attributes` key raises `KeyError('attributes')`. -/
def typeRowsOfDecl (decl : TypeDecl) : Except PyErr (List TypeRow) :=
  match pyGetKey decl.name "name" with
  | .error e => .error e
  | .ok type_name =>
    match pyGetKey decl.attributes "attributes" with
    | .error e => .error e
    | .ok attrs =>
      exceptMap (fun attr =>
        match pyGetKey attr.name "name" with
        | .error e => .error e
        | .ok attribute_name =>
          match pyGetKey attr.type "type" with
          | .error e => .error e
          | .ok attribute_type => .ok (TypeRow.mk type_name attribute_name attribute_type)) attrs

/-- Row extraction of `_create_and_load_object_types_table`:
iterate `ocel_data['objectTypes']`. -/
def objectTypesRows (ocel_data : OcelData) : Except PyErr (List TypeRow) :=
  match pyGetKey ocel_data.objectTypes "objectTypes" with
  | .error e => .error e
  | .ok decls =>
    match exceptMap typeRowsOfDecl decls with
    | .error e => .error e
    | .ok rowss => .ok rowss.flatten

/-- Row extraction of `_create_and_load_event_types_table`:
iterate `ocel_data['eventTypes']` (same element shape as object types). -/
def eventTypesRows (ocel_data : OcelData) : Except PyErr (List TypeRow) :=
  match pyGetKey ocel_data.eventTypes "eventTypes" with
  | .error e => .error e
  | .ok decls =>
    match exceptMap typeRowsOfDecl decls with
    | .error e => .error e
    | .ok rowss => .ok rowss.flatten

/-- Loop body of `create_and_load_objects_table` for one object:
`{'object_id': obj['id'], 'object_type': obj['type']}`. -/
def objRowOfObj (obj : OcelObject) : Except PyErr ObjectRow :=
  match pyGetKey obj.id "id" with
  | .error e => .error e
  | .ok object_id =>
    match pyGetKey obj.type "type" with
    | .error e => .error e
    | .ok object_type => .ok (ObjectRow.mk object_id object_type)

/-- Row extraction of `create_and_load_objects_table`: iterate `ocel_data['objects']`. -/
def objectsRows (ocel_data : OcelData) : Except PyErr (List ObjectRow) :=
  match pyGetKey ocel_data.objects "objects" with
  | .error e => .error e
  | .ok objs => exceptMap objRowOfObj objs

/-- Body of the inner loop of `_create_and_load_attributes_table` for one attribute of
an object with identifier `obj_id`: `attr['name']`, `str(attr['value'])`,
`attr.get('time')`. -/
def objAttrRowOfAttr (obj_id : String) (attr : AttrEntry) : Except PyErr ObjectAttributeRow :=
  match pyGetKey attr.name "name" with
  | .error e => .error e
  | .ok attribute_name =>
    match pyGetKey attr.value "value" with
    | .error e => .error e
    | .ok v => .ok (ObjectAttributeRow.mk obj_id attribute_name (pyStr v) attr.time)

/-- Outer loop body of `_create_and_load_attributes_table` for one object:
`obj_id = obj['id']`, then `for attr in obj.get('attributes', [])`. -/
def objAttrRowsOfObj (obj : OcelObject) : Except PyErr (List ObjectAttributeRow) :=
  match pyGetKey obj.id "id" with
  | .error e => .error e
  | .ok obj_id => exceptMap (objAttrRowOfAttr obj_id) (pyGetDefault obj.attributes [])

/-- Row extraction of `_create_and_load_attributes_table` (the `object_attributes`
table): iterate `ocel_data['objects']`. -/
def objectAttributesRows (ocel_data : OcelData) : Except PyErr (List ObjectAttributeRow) :=
  match pyGetKey ocel_data.objects "objects" with
  | .error e => .error e
  | .ok objs =>
    match exceptMap objAttrRowsOfObj objs with
    | .error e => .error e
    | .ok rowss => .ok rowss.flatten

/-- Inner loop body of `_create_and_load_object_relationships_table` for one
relationship of the object `source_id`: `rel['objectId']`, `rel.get('qualifier', '')`. -/
def objRelRowOfRel (source_id : String) (rel : RelEntry) : Except PyErr ObjectRelationshipRow :=
  match pyGetKey rel.objectId "objectId" with
  | .error e => .error e
  | .ok target_object_id =>
    .ok (ObjectRelationshipRow.mk source_id target_object_id (pyGetDefault rel.qualifier ""))

/-- Outer loop body of `_create_and_load_object_relationships_table` for one object:
`source_id = obj['id']`, then `for rel in obj.get('relationships', [])`. -/
def objRelRowsOfObj (obj : OcelObject) : Except PyErr (List ObjectRelationshipRow) :=
  match pyGetKey obj.id "id" with
  | .error e => .error e
  | .ok source_id => exceptMap (objRelRowOfRel source_id) (pyGetDefault obj.relationships [])

/-- Row extraction of `_create_and_load_object_relationships_table`:
iterate `ocel_data['objects']`. -/
def objectRelationshipsRows (ocel_data : OcelData) : Except PyErr (List ObjectRelationshipRow) :=
  match pyGetKey ocel_data.objects "objects" with
  | .error e => .error e
  | .ok objs =>
    match exceptMap objRelRowsOfObj objs with
    | .error e => .error e
    | .ok rowss => .ok rowss.flatten

/-- Loop body of `_create_and_load_events_table` for one event:
`{'event_id': event['id'], 'event_type': event['type'], 'event_time': event['time']}`. -/
def eventRowOfEvent (event : OcelEvent) : Except PyErr EventRow :=
  match pyGetKey event.id "id" with
  | .error e => .error e
  | .ok event_id =>
    match pyGetKey event.type "type" with
    | .error e => .error e
    | .ok event_type =>
      match pyGetKey event.time "time" with
      | .error e => .error e
      | .ok event_time => .ok (EventRow.mk event_id event_type event_time)

/-- Row extraction of `_create_and_load_events_table`: iterate `ocel_data['events']`. -/
def eventsRows (ocel_data : OcelData) : Except PyErr (List EventRow) :=
  match pyGetKey ocel_data.events "events" with
  | .error e => .error e
  | .ok evs => exceptMap eventRowOfEvent evs

/-- Body of the inner loop of `_create_and_load_event_attributes_table` for one
attribute of the event `event_id`: `attr['name']`, `str(attr['value'])`. -/
def evAttrRowOfAttr (event_id : String) (attr : AttrEntry) : Except PyErr EventAttributeRow :=
  match pyGetKey attr.name "name" with
  | .error e => .error e
  | .ok attribute_name =>
    match pyGetKey attr.value "value" with
    | .error e => .error e
    | .ok v => .ok (EventAttributeRow.mk event_id attribute_name (pyStr v))

/-- Outer loop body of `_create_and_load_event_attributes_table` for one event:
`event_id = event['id']`, then `for attr in event.get('attributes', [])`. -/
def evAttrRowsOfEvent (event : OcelEvent) : Except PyErr (List EventAttributeRow) :=
  match pyGetKey event.id "id" with
  | .error e => .error e
  | .ok event_id => exceptMap (evAttrRowOfAttr event_id) (pyGetDefault event.attributes [])

/-- Row extraction of `_create_and_load_event_attributes_table`:
iterate `ocel_data['events']`. -/
def eventAttributesRows (ocel_data : OcelData) : Except PyErr (List EventAttributeRow) :=
  match pyGetKey ocel_data.events "events" with
  | .error e => .error e
  | .ok evs =>
    match exceptMap evAttrRowsOfEvent evs with
    | .error e => .error e
    | .ok rowss => .ok rowss.flatten

/-- Inner loop body of `_create_and_load_event_object_relationships_table` for one
relationship of the event `event_id`: `rel['objectId']`, `rel.get('qualifier', '')`. -/
def evRelRowOfRel (event_id : String) (rel : RelEntry) : Except PyErr EventObjectRelationshipRow :=
  match pyGetKey rel.objectId "objectId" with
  | .error e => .error e
  | .ok object_id =>
    .ok (EventObjectRelationshipRow.mk event_id object_id (pyGetDefault rel.qualifier ""))

/-- Outer loop body of `_create_and_load_event_object_relationships_table` for one
event: `event_id = event['id']`, then `for rel in event.get('relationships', [])`. -/
def evRelRowsOfEvent (event : OcelEvent) : Except PyErr (List EventObjectRelationshipRow) :=
  match pyGetKey event.id "id" with
  | .error e => .error e
  | .ok event_id => exceptMap (evRelRowOfRel event_id) (pyGetDefault event.relationships [])

/-- Row extraction of `_create_and_load_event_object_relationships_table`:
iterate `ocel_data['events']`. -/
def eventObjectRelationshipsRows (ocel_data : OcelData) :
    Except PyErr (List EventObjectRelationshipRow) :=
  match pyGetKey ocel_data.events "events" with
  | .error e => .error e
  | .ok evs =>
    match exceptMap evRelRowsOfEvent evs with
    | .error e => .error e
    | .ok rowss => .ok rowss.flatten

/-! ## The table-building methods: extraction followed by the DataFrame step

Six of the eight methods guard `if rows:` and fall back to
`createDataFrame([], explicit_schema)` on an empty list; `create_and_load_objects_table`,
`_create_and_load_events_table` and `_create_and_load_event_object_relationships_table`
call `createDataFrame(rows)` unconditionally, so they raise `ValueError` on an empty
row list. -/

/-- `_create_and_load_object_types_table`: rows, then `createDataFrame` with the
empty-list schema fallback. -/
def create_and_load_object_types_table (ocel_data : OcelData) : Except PyErr (List TypeRow) :=
  match objectTypesRows ocel_data with
  | .error e => .error e
  | .ok rows =>
    if rows.isEmpty then createDataFrameWithSchema rows else createDataFrame rows

/-- `_create_and_load_event_types_table`: rows, then `createDataFrame` with the
empty-list schema fallback. -/
def create_and_load_event_types_table (ocel_data : OcelData) : Except PyErr (List TypeRow) :=
  match eventTypesRows ocel_data with
  | .error e => .error e
  | .ok rows =>
    if rows.isEmpty then createDataFrameWithSchema rows else createDataFrame rows

/-- `create_and_load_objects_table` (defined without a leading underscore in the
source): rows, then `createDataFrame(rows)` with NO empty-list fallback. -/
def create_and_load_objects_table (ocel_data : OcelData) : Except PyErr (List ObjectRow) :=
  match objectsRows ocel_data with
  | .error e => .error e
  | .ok rows => createDataFrame rows

/-- `_create_and_load_attributes_table` (writes `object_attributes`): rows, then
`createDataFrame` with the empty-list schema fallback. -/
def create_and_load_attributes_table (ocel_data : OcelData) :
    Except PyErr (List ObjectAttributeRow) :=
  match objectAttributesRows ocel_data with
  | .error e => .error e
  | .ok rows =>
    if rows.isEmpty then createDataFrameWithSchema rows else createDataFrame rows

/-- `_create_and_load_object_relationships_table`: rows, then `createDataFrame` with
the empty-list schema fallback. -/
def create_and_load_object_relationships_table (ocel_data : OcelData) :
    Except PyErr (List ObjectRelationshipRow) :=
  match objectRelationshipsRows ocel_data with
  | .error e => .error e
  | .ok rows =>
    if rows.isEmpty then createDataFrameWithSchema rows else createDataFrame rows

/-- `_create_and_load_events_table`: rows, then `createDataFrame(rows)` with NO
empty-list fallback. -/
def create_and_load_events_table (ocel_data : OcelData) : Except PyErr (List EventRow) :=
  match eventsRows ocel_data with
  | .error e => .error e
  | .ok rows => createDataFrame rows

/-- `_create_and_load_event_attributes_table`: rows, then `createDataFrame` with the
empty-list schema fallback. -/
def create_and_load_event_attributes_table (ocel_data : OcelData) :
    Except PyErr (List EventAttributeRow) :=
  match eventAttributesRows ocel_data with
  | .error e => .error e
  | .ok rows =>
    if rows.isEmpty then createDataFrameWithSchema rows else createDataFrame rows

/-- `_create_and_load_event_object_relationships_table`: rows, then
`createDataFrame(rows)` with NO empty-list fallback: on a document whose events have no
relationships this raises `ValueError` instead of writing an empty table. -/
def create_and_load_event_object_relationships_table (ocel_data : OcelData) :
    Except PyErr (List EventObjectRelationshipRow) :=
  match eventObjectRelationshipsRows ocel_data with
  | .error e => .error e
  | .ok rows => createDataFrame rows

/-! ## The full conversion pipeline -/

/-- The tables present in the target schema: `none` marks a table this run has not
(yet) written; `some rows` a table written with those rows (`overwrite` mode replaces
any previous contents). -/
structure TableStore where
  object_types : Option (List TypeRow)
  event_types : Option (List TypeRow)
  objects : Option (List ObjectRow)
  object_attributes : Option (List ObjectAttributeRow)
  object_relationships : Option (List ObjectRelationshipRow)
  events : Option (List EventRow)
  event_attributes : Option (List EventAttributeRow)
  event_object_relationships : Option (List EventObjectRelationshipRow)
deriving DecidableEq, Repr

/-- A store in which no table of this run exists yet. -/
def emptyStore : TableStore :=
  ⟨none, none, none, none, none, none, none, none⟩

/-- `OCELUCSchema.write_ocel_json_to_schema` (the JSON file is taken as the already
parsed document; `_load_ocel_json` is the I/O boundary of the model).  The method calls
the eight table builders in a fixed order with no `try`/`except` and no cleanup: an
exception propagates immediately, and tables already written stay written.

The third call in the source is `self._create_and_load_objects_table(ocel_data)` and the
fourth is `self._create_and_load_object_attributes_table(ocel_data)`; the class defines
those methods under the names `create_and_load_objects_table` and
`_create_and_load_attributes_table`, so on every document that survives the first two
steps Python raises `AttributeError` at the third call, and the remaining builders are
never reached. -/
def write_ocel_json_to_schema (ocel_data : OcelData) (store : TableStore) :
    TableStore × Option PyErr :=
  match create_and_load_object_types_table ocel_data with
  | .error e => (store, some e)
  | .ok r1 =>
    let store1 := { store with object_types := some r1 }
    match create_and_load_event_types_table ocel_data with
    | .error e => (store1, some e)
    | .ok r2 =>
      let store2 := { store1 with event_types := some r2 }
      (store2, some (.attributeError "_create_and_load_objects_table"))

/-! ## `OCEL2UCImporter` path handling (`src/utils/ocel2_uc_importer.py`) -/

/-- Helper for `pySplit`: accumulate the current segment, cut at each separator. -/
def splitChars (sep : Char) : List Char → List Char → List String
  | [], acc => [String.mk acc.reverse]
  | c :: cs, acc =>
    if c = sep then String.mk acc.reverse :: splitChars sep cs []
    else splitChars sep cs (c :: acc)

/-- Python `s.split(sep)` for a single-character separator: splits at every occurrence,
keeping empty segments (so a leading separator yields a leading empty string, and the
empty string splits to `[""]`). -/
def pySplit (s : String) (sep : Char) : List String :=
  splitChars sep s.data []

/-- The result dictionary of `parse_uc_file_path`. -/
structure UCPathParts where
  catalog : String
  schema : String
  volume : String
  file_name : String
deriving DecidableEq, Repr

/-- The `ValueError` message `parse_uc_file_path` raises on a malformed path. -/
def invalidPathMsg : String :=
  "Invalid file path format. Expected format: /Volumes/<catalog>/<schema>/<volume>/<file_name>."

/-- `OCEL2UCImporter.parse_uc_file_path`:
`catalog, schema, volume, file_name = file_path.split('/')[2:]` — tuple unpacking of the
slice from index 2 on; when that slice does not have exactly four elements the unpacking
raises `ValueError`, which the `except ValueError` clause re-raises with
`invalidPathMsg`.  Nothing checks the two components before the slice (the empty segment
and the `Volumes` root of a well-formed path). -/
def parse_uc_file_path (file_path : String) : Except PyErr UCPathParts :=
  match (pySplit file_path '/').drop 2 with
  | [catalog, schema, volume, file_name] => .ok ⟨catalog, schema, volume, file_name⟩
  | _ => .error (.valueError invalidPathMsg)

/-- The instance attributes of `OCEL2UCImporter` that `set_uc_file_path` assigns
(`__init__` sets them all to `None`). -/
structure ImporterState where
  catalog : Option String
  schema : Option String
  volume : Option String
  file_name : Option String
  file_path : Option String
deriving DecidableEq, Repr

/-- `OCEL2UCImporter.__init__`: every attribute starts as `None`. -/
def importerInit : ImporterState :=
  ⟨none, none, none, none, none⟩

/-- `OCEL2UCImporter.set_uc_file_path(self, file_path, catalog, schema, volume,
file_name)`.  Returns the instance state after the call together with the exception
raised, if any; on an exception the state holds exactly the assignments executed before
the raise.

In the `file_path` branch the source calls the unqualified name
`parse_uc_file_path(file_path)`.  That name is bound only as an attribute of the class,
not at module level, and Python resolves an unqualified name inside a method through the
local, enclosing, global and builtin scopes — never through the class namespace — so the
call raises `NameError` before any attribute of `self` is assigned. -/
def set_uc_file_path (self : ImporterState)
    (file_path catalog schema volume file_name : Option String) :
    ImporterState × Option PyErr :=
  let has_file_path := file_path.isSome
  let has_components :=
    catalog.isSome || schema.isSome || volume.isSome || file_name.isSome
  if has_file_path && has_components then
    (self, some (.valueError
      "Provide either file_path or all of (catalog, schema, volume, file_name), but not both."))
  else if !has_file_path && !has_components then
    (self, some (.valueError
      "Must provide either file_path or all of (catalog, schema, volume, file_name)."))
  else if has_file_path then
    (self, some (.nameError "parse_uc_file_path"))
  else
    match catalog, schema, volume, file_name with
    | some c, some s, some v, some f =>
      ({ catalog := some c, schema := some s, volume := some v, file_name := some f,
         file_path := some ("/Volumes/" ++ c ++ "/" ++ s ++ "/" ++ v ++ "/" ++ f) }, none)
    | _, _, _, _ =>
      (self, some (.valueError
        "When not providing file_path, all components are required."))

/-! ## The downloaders -/

/-- An HTTP response as the downloaders consume it: whether `raise_for_status()`
passes, the optional `content-length` header, and the byte chunks that
`iter_content(chunk_size=8192)` yields. -/
structure HttpResponse where
  status_ok : Bool
  content_length : Option Nat
  chunks : List (List Nat)
deriving DecidableEq, Repr

/-- The bytes a downloader writes: `for chunk in response.iter_content(...): if chunk:
f.write(chunk)` — every non-empty chunk, concatenated in order.  `downloaded` in the
source is the length of this list. -/
def writtenBytes (response : HttpResponse) : List Nat :=
  (response.chunks.filter (fun c => !c.isEmpty)).flatten

/-- `os.path.join(folder_path, file_name)` for the shapes the repository uses
(no absolute second argument). -/
def os_path_join (folder_path file_name : String) : String :=
  if folder_path.data.getLast? = some '/' then folder_path ++ file_name
  else folder_path ++ "/" ++ file_name

/-- A Python return value of a downloader, as far as the claims need to distinguish it:
`None`, a single string, or a (path, byte-count) pair. -/
inductive PyVal where
  | none
  | str (s : String)
  | pair (s : String) (n : Nat)
deriving DecidableEq, Repr

/-- What a successful download leaves behind: the path written, the bytes written to
that path, and the value the call returns. -/
structure DownloadOutcome where
  destination : String
  file_content : List Nat
  ret : PyVal
deriving DecidableEq, Repr

/-- `download_file(url, folder_path, file_name)` from
`src/ingest/download_ocel_to_uc_volume.py`: joins the destination path, creates the
directory (a filesystem effect with no return value), streams the response body to the
destination, and ends with `return destination` — the byte counter `downloaded` is used
only for the progress printout. -/
def download_file (url folder_path file_name : String) (response : HttpResponse) :
    Except PyErr DownloadOutcome :=
  let destination := os_path_join folder_path file_name
  if !response.status_ok then .error (.requestError url)
  else .ok ⟨destination, writtenBytes response, PyVal.str destination⟩

/-- `OCEL2UCImporter.download_file(self, url, file_path=None)` from
`src/utils/ocel2_uc_importer.py`: requires `url`; takes `file_path` from the argument or
from `self.file_path`, raising `ValueError` when both are `None`; streams the body; has
no `return` statement, so a successful call returns `None`. -/
def importer_download_file (self_file_path : Option String) (url : Option String)
    (file_path : Option String) (response : HttpResponse) : Except PyErr DownloadOutcome :=
  match url with
  | none => .error (.valueError "Parameter url is required.")
  | some u =>
    match file_path.orElse (fun _ => self_file_path) with
    | none => .error (.valueError "Parameter file_path is required.")
    | some fp =>
      if !response.status_ok then .error (.requestError u)
      else .ok ⟨fp, writtenBytes response, PyVal.none⟩

/-- `OCEL2JSONUCImporter.download_file(self, file_name)` from
`src/utils/download_ocel_to_uc_volume.py`: requires the instance attributes `url`,
`catalog`, `schema` and `volume` (raising `ValueError` for whichever is `None`, checked
in that order); builds `volume_path = f"/Volumes/{catalog}/{schema}/{volume}"`, creates
the directory, joins `file_path = os.path.join(volume_path, file_name)`, streams the
body, and ends with `return file_path` — again only the destination string, never the
byte counter. -/
def ocel2json_importer_download_file (self_url self_catalog self_schema self_volume :
    Option String) (file_name : String) (response : HttpResponse) :
    Except PyErr DownloadOutcome :=
  match self_url with
  | none => .error (.valueError "URL is required.")
  | some u =>
    match self_catalog with
    | none => .error (.valueError "Catalog is required.")
    | some c =>
      match self_schema with
      | none => .error (.valueError "Schema is required.")
      | some s =>
        match self_volume with
        | none => .error (.valueError "Volume is required.")
        | some v =>
          let volume_path := "/Volumes/" ++ c ++ "/" ++ s ++ "/" ++ v
          let file_path := os_path_join volume_path file_name
          if !response.status_ok then .error (.requestError u)
          else .ok ⟨file_path, writtenBytes response, PyVal.str file_path⟩

/-- Modelled from the spec: "On success, returns the final path and the byte count
written."  No `download_file` in `src/` returns a byte count (the ingest and
class-based variants return only the destination string; the `OCEL2UCImporter` method
returns `None`); this definition records the return shape the spec asserts, for
comparison with the source's return value. -/
def download_file_spec_return (destination : String) (response : HttpResponse) : PyVal :=
  PyVal.pair destination (writtenBytes response).length

/-! ## Concrete documents used by the claims -/

/-- The spec's minimal document:
`{"objectTypes":[],"eventTypes":[],"objects":[{"id":"o1","type":"order"}],"events":[{"id":"e1","type":"place","time":"2024-01-01T00:00:00Z"}]}`. -/
def minimalDoc : OcelData :=
  { objectTypes := some []
    eventTypes := some []
    objects := some [{ id := some "o1", type := some "order",
                       attributes := none, relationships := none }]
    events := some [{ id := some "e1", type := some "place",
                      time := some "2024-01-01T00:00:00Z",
                      attributes := none, relationships := none }] }

/-- A document whose single objectTypes entry has a `name` but no `attributes` key,
and whose single eventTypes entry likewise. -/
def noAttrsTypesDoc : OcelData :=
  { objectTypes := some [{ name := some "order", attributes := none }]
    eventTypes := some [{ name := some "place", attributes := none }]
    objects := some []
    events := some [] }

/-- A successful three-byte HTTP response used as a concrete download. -/
def sampleResponse : HttpResponse :=
  { status_ok := true, content_length := some 3, chunks := [[104, 105, 10]] }

/-! ## Helper lemmas about `exceptMap` -/

/-- If the loop body succeeds with property `P` on every element, the loop succeeds,
produces one row per element, and every row satisfies `P`. -/
theorem exceptMap_ok_of_forall {α β : Type} {f : α → Except PyErr β} {P : β → Prop} :
    ∀ (xs : List α), (∀ x ∈ xs, ∃ y, f x = .ok y ∧ P y) →
      ∃ ys, exceptMap f xs = .ok ys ∧ ys.length = xs.length ∧ ∀ y ∈ ys, P y
  | [], _ => ⟨[], rfl, rfl, by simp⟩
  | x :: xs, h => by
    obtain ⟨y, hy, hPy⟩ := h x (List.mem_cons_self x xs)
    obtain ⟨ys, hys, hlen, hall⟩ :=
      exceptMap_ok_of_forall xs (fun z hz => h z (List.mem_cons_of_mem x hz))
    refine ⟨y :: ys, ?_, by simp [hlen], ?_⟩
    · simp [exceptMap, hy, hys]
    · intro z hz
      rcases List.mem_cons.mp hz with h1 | h2
      · exact h1 ▸ hPy
      · exact hall z h2

/-- A successful loop run contains a row for every input element. -/
theorem exceptMap_ok_mem {α β : Type} {f : α → Except PyErr β} :
    ∀ {xs : List α} {ys : List β}, exceptMap f xs = .ok ys →
      ∀ {x : α}, x ∈ xs → ∃ y ∈ ys, f x = .ok y := by
  intro xs
  induction xs with
  | nil => intro ys _ x hx; simp at hx
  | cons a as ih =>
    intro ys h x hx
    rw [exceptMap] at h
    cases hfa : f a with
    | error e => rw [hfa] at h; cases h
    | ok y =>
      rw [hfa] at h
      cases hmap : exceptMap f as with
      | error e => rw [hmap] at h; cases h
      | ok ws =>
        rw [hmap] at h
        obtain rfl : y :: ws = ys := by injection h
        rcases List.mem_cons.mp hx with rfl | hmem
        · exact ⟨y, List.mem_cons_self y ws, hfa⟩
        · obtain ⟨w, hw, hfw⟩ := ih hmap hmem
          exact ⟨w, List.mem_cons_of_mem y hw, hfw⟩

/-- For an object with an `id` and well-formed attribute entries, the
`object_attributes` loop body succeeds, yields one row per attribute, and stamps the
object's id on every row. -/
theorem objAttrRowsOfObj_ok (o : OcelObject) (i : String) (hid : o.id = some i)
    (hwf : ∀ a ∈ pyGetDefault o.attributes [], a.name.isSome ∧ a.value.isSome) :
    ∃ rows, objAttrRowsOfObj o = .ok rows ∧
      rows.length = (pyGetDefault o.attributes []).length ∧
      ∀ r ∈ rows, r.object_id = i := by
  obtain ⟨rows, hrows, hlen, hall⟩ :=
    exceptMap_ok_of_forall (f := objAttrRowOfAttr i) (P := fun r => r.object_id = i)
      (pyGetDefault o.attributes [])
      (by
        intro a ha
        obtain ⟨hn, hv⟩ := hwf a ha
        obtain ⟨n, hn⟩ := Option.isSome_iff_exists.mp hn
        obtain ⟨v, hv⟩ := Option.isSome_iff_exists.mp hv
        exact ⟨⟨i, n, pyStr v, a.time⟩, by simp [objAttrRowOfAttr, pyGetKey, hn, hv], rfl⟩)
  refine ⟨rows, ?_, hlen, hall⟩
  simp [objAttrRowsOfObj, pyGetKey, hid, hrows]

/-- Joint induction for the `object_attributes` / `objects` invariant: on a well-formed
object list both loops succeed, the attribute rows number `Σ kᵢ`, and every attribute
row's object id is an object id of the objects rows. -/
theorem objectRows_attrRows_aux :
    ∀ (objs : List OcelObject),
      (∀ o ∈ objs, o.id.isSome ∧ o.type.isSome ∧
        ∀ a ∈ pyGetDefault o.attributes [], a.name.isSome ∧ a.value.isSome) →
      ∃ arowss orows,
        exceptMap objAttrRowsOfObj objs = .ok arowss ∧
        exceptMap objRowOfObj objs = .ok orows ∧
        arowss.flatten.length =
          (objs.map (fun o => (pyGetDefault o.attributes []).length)).sum ∧
        ∀ r ∈ arowss.flatten, r.object_id ∈ orows.map (fun q => q.object_id)
  | [], _ => ⟨[], [], rfl, rfl, rfl, by simp⟩
  | o :: os, h => by
    obtain ⟨hid, hty, hattrs⟩ := h o (List.mem_cons_self o os)
    obtain ⟨i, hi⟩ := Option.isSome_iff_exists.mp hid
    obtain ⟨t, ht⟩ := Option.isSome_iff_exists.mp hty
    obtain ⟨rows, hrows, hlen, hall⟩ := objAttrRowsOfObj_ok o i hi hattrs
    obtain ⟨arowss, orows, hmapA, hmapO, hlen2, hmem⟩ :=
      objectRows_attrRows_aux os (fun z hz => h z (List.mem_cons_of_mem o hz))
    refine ⟨rows :: arowss, ObjectRow.mk i t :: orows, ?_, ?_, ?_, ?_⟩
    · simp [exceptMap, hrows, hmapA]
    · simp [exceptMap, objRowOfObj, pyGetKey, hi, ht, hmapO]
    · simp [hlen, hlen2]
    · intro r hr
      rw [List.flatten_cons] at hr
      simp only [List.map_cons, List.mem_cons]
      rcases List.mem_append.mp hr with hhead | htail
      · exact Or.inl (hall r hhead)
      · exact Or.inr (hmem r htail)

/-! ## The claims -/

/-- C1: the spec asserts that the minimal document yields an objects table (o1, order),
an events table (e1, place, 2024-01-01T00:00:00Z), and the remaining tables empty but
present, and that empty lists never yield a missing table.  The code violates this: the
full run dies with `AttributeError` at the misnamed third call, leaving only
`object_types` and `event_types` written; and even called directly, the
`event_object_relationships` builder raises `ValueError` on the minimal document
(no empty-list schema fallback), while the objects and events builders do produce
their single rows. -/
theorem ocel_c1_minimal_document_run :
    write_ocel_json_to_schema minimalDoc emptyStore =
      ({ emptyStore with object_types := some [], event_types := some [] },
       some (.attributeError "_create_and_load_objects_table")) ∧
    create_and_load_objects_table minimalDoc = .ok [⟨"o1", "order"⟩] ∧
    create_and_load_events_table minimalDoc =
      .ok [⟨"e1", "place", "2024-01-01T00:00:00Z"⟩] ∧
    create_and_load_event_object_relationships_table minimalDoc =
      .error (.valueError "can not infer schema from empty dataset") :=
  ⟨rfl, rfl, rfl, rfl⟩

/-- C2 counterexample: a document whose objectTypes entry has a name but no
`attributes` key makes the object-types builder raise `KeyError('attributes')` (and
likewise for eventTypes) instead of emitting zero rows without error, refuting the
claim as stated. -/
theorem ocel_c2_missing_attributes_key_raises :
    create_and_load_object_types_table noAttrsTypesDoc = .error (.keyError "attributes") ∧
    create_and_load_event_types_table noAttrsTypesDoc = .error (.keyError "attributes") :=
  ⟨rfl, rfl⟩

/-- C2 amended: an absent nested array is treated as empty only where the source reads
it with `.get('…', [])` — the `attributes` and `relationships` arrays of objects and
events, which then yield zero rows and no error; an objectTypes or eventTypes entry
without an `attributes` key instead raises `KeyError('attributes')`, in both the
object-types and event-types builders. -/
theorem ocel_c2_amended_absent_arrays (o : OcelObject) (e : OcelEvent) (t : TypeDecl)
    (i j n : String)
    (hoi : o.id = some i) (hoa : o.attributes = none) (hor : o.relationships = none)
    (hei : e.id = some j) (hea : e.attributes = none) (her : e.relationships = none)
    (htn : t.name = some n) (hta : t.attributes = none) :
    objAttrRowsOfObj o = .ok [] ∧ objRelRowsOfObj o = .ok [] ∧
    evAttrRowsOfEvent e = .ok [] ∧ evRelRowsOfEvent e = .ok [] ∧
    typeRowsOfDecl t = .error (.keyError "attributes") := by
  refine ⟨?_, ?_, ?_, ?_, ?_⟩
  · simp [objAttrRowsOfObj, pyGetKey, pyGetDefault, hoi, hoa, exceptMap]
  · simp [objRelRowsOfObj, pyGetKey, pyGetDefault, hoi, hor, exceptMap]
  · simp [evAttrRowsOfEvent, pyGetKey, pyGetDefault, hei, hea, exceptMap]
  · simp [evRelRowsOfEvent, pyGetKey, pyGetDefault, hei, her, exceptMap]
  · simp [typeRowsOfDecl, pyGetKey, htn, hta]

/-- C2 amended, witness: concrete object, event and type declaration without the
nested arrays. -/
theorem ocel_c2_amended_witness :
    objAttrRowsOfObj ⟨some "o1", some "order", none, none⟩ = .ok [] ∧
    objRelRowsOfObj ⟨some "o1", some "order", none, none⟩ = .ok [] ∧
    evAttrRowsOfEvent ⟨some "e1", some "place", some "2024-01-01T00:00:00Z", none, none⟩ =
      .ok [] ∧
    evRelRowsOfEvent ⟨some "e1", some "place", some "2024-01-01T00:00:00Z", none, none⟩ =
      .ok [] ∧
    typeRowsOfDecl ⟨some "order", none⟩ = .error (.keyError "attributes") :=
  ocel_c2_amended_absent_arrays _ _ _ "o1" "e1" "order" rfl rfl rfl rfl rfl rfl rfl rfl

/-- C3: a relationship entry without a `qualifier` key produces a row whose qualifier
is the empty string (the row fields are non-null strings by construction), both in the
object-to-object and in the event-to-object relationship builders, and such a row
appears in the row list built for the containing object or event. -/
theorem ocel_c3_qualifier_defaults_empty (src ev tid : String) (rel : RelEntry)
    (hoid : rel.objectId = some tid) (hq : rel.qualifier = none) :
    objRelRowOfRel src rel = .ok ⟨src, tid, ""⟩ ∧
    evRelRowOfRel ev rel = .ok ⟨ev, tid, ""⟩ ∧
    (∀ (o : OcelObject) (rows : List ObjectRelationshipRow), o.id = some src →
      rel ∈ pyGetDefault o.relationships [] → objRelRowsOfObj o = .ok rows →
      ObjectRelationshipRow.mk src tid "" ∈ rows) ∧
    (∀ (e : OcelEvent) (rows : List EventObjectRelationshipRow), e.id = some ev →
      rel ∈ pyGetDefault e.relationships [] → evRelRowsOfEvent e = .ok rows →
      EventObjectRelationshipRow.mk ev tid "" ∈ rows) := by
  have h1 : objRelRowOfRel src rel = .ok ⟨src, tid, ""⟩ := by
    simp [objRelRowOfRel, pyGetKey, pyGetDefault, hoid, hq]
  have h2 : evRelRowOfRel ev rel = .ok ⟨ev, tid, ""⟩ := by
    simp [evRelRowOfRel, pyGetKey, pyGetDefault, hoid, hq]
  refine ⟨h1, h2, ?_, ?_⟩
  · intro o rows ho hmem hrows
    simp only [objRelRowsOfObj, pyGetKey, ho] at hrows
    obtain ⟨y, hy, hfy⟩ := exceptMap_ok_mem hrows hmem
    rw [h1] at hfy
    obtain rfl : ObjectRelationshipRow.mk src tid "" = y := by injection hfy
    exact hy
  · intro e rows he hmem hrows
    simp only [evRelRowsOfEvent, pyGetKey, he] at hrows
    obtain ⟨y, hy, hfy⟩ := exceptMap_ok_mem hrows hmem
    rw [h2] at hfy
    obtain rfl : EventObjectRelationshipRow.mk ev tid "" = y := by injection hfy
    exact hy

/-- C3 witness: a concrete qualifier-less relationship inside a concrete object and a
concrete event. -/
theorem ocel_c3_witness :
    objRelRowOfRel "o1" ⟨some "o2", none⟩ = .ok ⟨"o1", "o2", ""⟩ ∧
    objRelRowsOfObj ⟨some "o1", some "order", none, some [⟨some "o2", none⟩]⟩ =
      .ok [⟨"o1", "o2", ""⟩] ∧
    EventObjectRelationshipRow.mk "e1" "o2" "" ∈ [EventObjectRelationshipRow.mk "e1" "o2" ""] := by
  have h := ocel_c3_qualifier_defaults_empty "o1" "e1" "o2" ⟨some "o2", none⟩ rfl rfl
  refine ⟨h.1, rfl, ?_⟩
  exact h.2.2.2 ⟨some "e1", some "place", some "t", none, some [⟨some "o2", none⟩]⟩
    [⟨"e1", "o2", ""⟩] rfl (by simp [pyGetDefault]) rfl

/-- C4: for a document whose `objects` array is present and well-formed (each object
has an `id` and a `type`, and each attribute entry a `name` and a `value`), the
`object_attributes` extraction succeeds with exactly `Σ kᵢ` rows, where `kᵢ` is the
length of object i's attribute list (absent list = empty), and every row's `object_id`
occurs as an `object_id` in the rows of the objects table built from the same
document. -/
theorem ocel_c4_object_attributes_invariant (d : OcelData) (objs : List OcelObject)
    (hobjs : d.objects = some objs)
    (hwf : ∀ o ∈ objs, o.id.isSome ∧ o.type.isSome ∧
      ∀ a ∈ pyGetDefault o.attributes [], a.name.isSome ∧ a.value.isSome) :
    ∃ arows orows,
      objectAttributesRows d = .ok arows ∧
      objectsRows d = .ok orows ∧
      arows.length = (objs.map (fun o => (pyGetDefault o.attributes []).length)).sum ∧
      ∀ r ∈ arows, r.object_id ∈ orows.map (fun q => q.object_id) := by
  obtain ⟨arowss, orows, hmapA, hmapO, hlen, hmem⟩ := objectRows_attrRows_aux objs hwf
  refine ⟨arowss.flatten, orows, ?_, ?_, hlen, hmem⟩
  · simp only [objectAttributesRows, pyGetKey, hobjs, hmapA]
  · simp only [objectsRows, pyGetKey, hobjs, hmapO]

/-- C4 witness: a two-object document with one and two attributes respectively; three
attribute rows, each referencing an objects-table id. -/
theorem ocel_c4_witness :
    ∃ arows orows,
      objectAttributesRows
        { objectTypes := some [], eventTypes := some [],
          objects := some
            [⟨some "o1", some "order", some [⟨some "a", some (JValue.jint 1), none⟩], none⟩,
             ⟨some "o2", some "item",
              some [⟨some "b", some (JValue.jstr "x"), some "t1"⟩,
                    ⟨some "c", some (JValue.jbool false), none⟩], none⟩],
          events := some [] } = .ok arows ∧
      objectsRows
        { objectTypes := some [], eventTypes := some [],
          objects := some
            [⟨some "o1", some "order", some [⟨some "a", some (JValue.jint 1), none⟩], none⟩,
             ⟨some "o2", some "item",
              some [⟨some "b", some (JValue.jstr "x"), some "t1"⟩,
                    ⟨some "c", some (JValue.jbool false), none⟩], none⟩],
          events := some [] } = .ok orows ∧
      arows.length = 3 ∧
      ∀ r ∈ arows, r.object_id ∈ orows.map (fun q => q.object_id) := by
  obtain ⟨arows, orows, h1, h2, h3, h4⟩ :=
    ocel_c4_object_attributes_invariant
      { objectTypes := some [], eventTypes := some [],
        objects := some
          [⟨some "o1", some "order", some [⟨some "a", some (JValue.jint 1), none⟩], none⟩,
           ⟨some "o2", some "item",
            some [⟨some "b", some (JValue.jstr "x"), some "t1"⟩,
                  ⟨some "c", some (JValue.jbool false), none⟩], none⟩],
        events := some [] }
      [⟨some "o1", some "order", some [⟨some "a", some (JValue.jint 1), none⟩], none⟩,
       ⟨some "o2", some "item",
        some [⟨some "b", some (JValue.jstr "x"), some "t1"⟩,
              ⟨some "c", some (JValue.jbool false), none⟩], none⟩]
      rfl (by decide)
  exact ⟨arows, orows, h1, h2, by simpa [pyGetDefault] using h3, h4⟩

/-- C6: attribute values are stored through Python `str`; on a string this is the
identity, so restringification is idempotent — `stringify(stringify(x)) = stringify(x)`
for every modelled JSON value — and both the object-attribute and event-attribute
builders store exactly `pyStr` of the raw value. -/
theorem ocel_c6_stringify_idempotent :
    (∀ v : JValue, pyStr (JValue.jstr (pyStr v)) = pyStr v) ∧
    (∀ (obj_id : String) (a : AttrEntry) (n : String) (v : JValue),
      a.name = some n → a.value = some v →
      objAttrRowOfAttr obj_id a = .ok ⟨obj_id, n, pyStr v, a.time⟩) ∧
    (∀ (event_id : String) (a : AttrEntry) (n : String) (v : JValue),
      a.name = some n → a.value = some v →
      evAttrRowOfAttr event_id a = .ok ⟨event_id, n, pyStr v⟩) := by
  refine ⟨fun v => rfl, ?_, ?_⟩
  · intro obj_id a n v hn hv
    simp [objAttrRowOfAttr, pyGetKey, hn, hv]
  · intro event_id a n v hn hv
    simp [evAttrRowOfAttr, pyGetKey, hn, hv]

/-- C6 witness: idempotence at a number, a boolean and a string, and the stored
stringified values for concrete attribute entries. -/
theorem ocel_c6_witness :
    pyStr (JValue.jstr (pyStr (JValue.jint 42))) = pyStr (JValue.jint 42) ∧
    pyStr (JValue.jstr (pyStr (JValue.jbool true))) = pyStr (JValue.jbool true) ∧
    pyStr (JValue.jstr (pyStr (JValue.jstr "order"))) = pyStr (JValue.jstr "order") ∧
    objAttrRowOfAttr "o1" ⟨some "qty", some (JValue.jint 42), none⟩ =
      .ok ⟨"o1", "qty", "42", none⟩ ∧
    evAttrRowOfAttr "e1" ⟨some "ok", some (JValue.jbool true), none⟩ =
      .ok ⟨"e1", "ok", "True"⟩ :=
  ⟨ocel_c6_stringify_idempotent.1 (JValue.jint 42),
   ocel_c6_stringify_idempotent.1 (JValue.jbool true),
   ocel_c6_stringify_idempotent.1 (JValue.jstr "order"),
   ocel_c6_stringify_idempotent.2.1 "o1" ⟨some "qty", some (JValue.jint 42), none⟩
     "qty" (JValue.jint 42) rfl rfl,
   ocel_c6_stringify_idempotent.2.2 "e1" ⟨some "ok", some (JValue.jbool true), none⟩
     "ok" (JValue.jbool true) rfl rfl⟩

/-- C5: `parse_uc_file_path` maps `/Volumes/main/logistics/raw/ocel.json` to the
dictionary (main, logistics, raw, ocel.json), and any path whose `split('/')` slice
from index 2 does not hold exactly four segments raises the `ValueError` with the
invalid-format message. -/
theorem ocel_c5_parse_uc_file_path :
    parse_uc_file_path "/Volumes/main/logistics/raw/ocel.json" =
      .ok ⟨"main", "logistics", "raw", "ocel.json"⟩ ∧
    ∀ p : String, ((pySplit p '/').drop 2).length ≠ 4 →
      parse_uc_file_path p = .error (.valueError invalidPathMsg) := by
  refine ⟨rfl, ?_⟩
  intro p h
  unfold parse_uc_file_path
  generalize (pySplit p '/').drop 2 = l at h ⊢
  rcases l with _ | ⟨a, _ | ⟨b, _ | ⟨c, _ | ⟨d, _ | ⟨e, rest⟩⟩⟩⟩⟩
  · rfl
  · rfl
  · rfl
  · rfl
  · simp at h
  · rfl

/-- C5 witness: a three-segment path fails with the ValueError. -/
theorem ocel_c5_witness :
    parse_uc_file_path "/Volumes/main/logistics/ocel.json" =
      .error (.valueError invalidPathMsg) :=
  ocel_c5_parse_uc_file_path.2 "/Volumes/main/logistics/ocel.json" (by decide)

/-- C7: the conversion is best-effort per table: every run of
`write_ocel_json_to_schema` raises (the third builder call is misnamed, so no run
completes); a failure in the first builder leaves the store untouched; after a
successful first builder its table persists with the new rows whatever happens later;
and when the first two builders succeed the run stops at the `AttributeError` with
exactly those two tables (re)written — the six later tables always keep the prior
store's contents, and nothing written is rolled back. -/
theorem ocel_c7_best_effort_pipeline (d : OcelData) (store : TableStore) :
    ((write_ocel_json_to_schema d store).2.isSome = true ∧
     (write_ocel_json_to_schema d store).1.objects = store.objects ∧
     (write_ocel_json_to_schema d store).1.object_attributes = store.object_attributes ∧
     (write_ocel_json_to_schema d store).1.object_relationships = store.object_relationships ∧
     (write_ocel_json_to_schema d store).1.events = store.events ∧
     (write_ocel_json_to_schema d store).1.event_attributes = store.event_attributes ∧
     (write_ocel_json_to_schema d store).1.event_object_relationships =
       store.event_object_relationships) ∧
    (∀ e, create_and_load_object_types_table d = .error e →
      write_ocel_json_to_schema d store = (store, some e)) ∧
    (∀ r1, create_and_load_object_types_table d = .ok r1 →
      (write_ocel_json_to_schema d store).1.object_types = some r1 ∧
      (∀ e, create_and_load_event_types_table d = .error e →
        write_ocel_json_to_schema d store = ({ store with object_types := some r1 }, some e)) ∧
      (∀ r2, create_and_load_event_types_table d = .ok r2 →
        write_ocel_json_to_schema d store =
          ({ store with object_types := some r1, event_types := some r2 },
           some (.attributeError "_create_and_load_objects_table")))) := by
  unfold write_ocel_json_to_schema
  cases h1 : create_and_load_object_types_table d with
  | error e1 => simp [h1]
  | ok r1 =>
    cases h2 : create_and_load_event_types_table d with
    | error e2 => simp [h2]
    | ok r2 => simp [h2]

/-- C7 witness: the minimal document over an empty store — object_types and
event_types persist with their new (empty) contents, the run stops at the
AttributeError, and the six other tables are untouched. -/
theorem ocel_c7_witness :
    write_ocel_json_to_schema minimalDoc emptyStore =
      ({ emptyStore with object_types := some [], event_types := some [] },
       some (.attributeError "_create_and_load_objects_table")) :=
  (((ocel_c7_best_effort_pipeline minimalDoc emptyStore).2.2 [] rfl).2.2) [] rfl

/-- C8 counterexample: on a concrete successful three-byte download, the ingest
`download_file` returns only the destination string and the `OCEL2UCImporter` method
returns `None`; neither equals the (path, byte-count) pair the claim demands. -/
theorem ocel_c8_no_byte_count_returned :
    download_file "http://x" "/Volumes/c/s/v" "f.json" sampleResponse =
      .ok ⟨"/Volumes/c/s/v/f.json", [104, 105, 10], PyVal.str "/Volumes/c/s/v/f.json"⟩ ∧
    importer_download_file none (some "http://x") (some "/Volumes/c/s/v/f.json")
        sampleResponse =
      .ok ⟨"/Volumes/c/s/v/f.json", [104, 105, 10], PyVal.none⟩ ∧
    download_file_spec_return "/Volumes/c/s/v/f.json" sampleResponse =
      PyVal.pair "/Volumes/c/s/v/f.json" 3 ∧
    PyVal.str "/Volumes/c/s/v/f.json" ≠ PyVal.pair "/Volumes/c/s/v/f.json" 3 ∧
    PyVal.none ≠ PyVal.pair "/Volumes/c/s/v/f.json" 3 :=
  ⟨rfl, rfl, rfl, by decide, by decide⟩

/-- C8 amended: on every successful download the ingest fetcher and the class-based
`OCEL2JSONUCImporter.download_file` return only the final destination path (as a bare
string) and the `OCEL2UCImporter` method returns `None`; the byte count is written to
the destination and used for the progress printout but is not part of any return
value. -/
theorem ocel_c8_amended_returns_path_only
    (url folder_path file_name fp cat sch vol : String)
    (response : HttpResponse) (h : response.status_ok = true) :
    download_file url folder_path file_name response =
      .ok ⟨os_path_join folder_path file_name, writtenBytes response,
           PyVal.str (os_path_join folder_path file_name)⟩ ∧
    importer_download_file none (some url) (some fp) response =
      .ok ⟨fp, writtenBytes response, PyVal.none⟩ ∧
    ocel2json_importer_download_file (some url) (some cat) (some sch) (some vol)
        file_name response =
      .ok ⟨os_path_join ("/Volumes/" ++ cat ++ "/" ++ sch ++ "/" ++ vol) file_name,
           writtenBytes response,
           PyVal.str (os_path_join ("/Volumes/" ++ cat ++ "/" ++ sch ++ "/" ++ vol)
             file_name)⟩ := by
  refine ⟨?_, ?_, ?_⟩
  · simp [download_file, h]
  · simp [importer_download_file, h, Option.orElse]
  · simp [ocel2json_importer_download_file, h]

/-- C8 amended, witness: the concrete successful download, through all three source
variants. -/
theorem ocel_c8_amended_witness :
    download_file "http://x" "/Volumes/c/s/v" "f.json" sampleResponse =
      .ok ⟨os_path_join "/Volumes/c/s/v" "f.json", writtenBytes sampleResponse,
           PyVal.str (os_path_join "/Volumes/c/s/v" "f.json")⟩ ∧
    importer_download_file none (some "http://x") (some "/Volumes/c/s/v/f.json")
        sampleResponse =
      .ok ⟨"/Volumes/c/s/v/f.json", writtenBytes sampleResponse, PyVal.none⟩ ∧
    ocel2json_importer_download_file (some "http://x") (some "c") (some "s") (some "v")
        "f.json" sampleResponse =
      .ok ⟨os_path_join ("/Volumes/" ++ "c" ++ "/" ++ "s" ++ "/" ++ "v") "f.json",
           writtenBytes sampleResponse,
           PyVal.str (os_path_join ("/Volumes/" ++ "c" ++ "/" ++ "s" ++ "/" ++ "v")
             "f.json")⟩ :=
  ocel_c8_amended_returns_path_only "http://x" "/Volumes/c/s/v" "f.json"
    "/Volumes/c/s/v/f.json" "c" "s" "v" sampleResponse rfl

/-- C9: `parse_uc_file_path` never validates the fixed root: whenever `split('/')`
yields exactly six components, parsing succeeds and returns components 2..5 as catalog,
schema, volume and file_name, whatever the first two components are. -/
theorem ocel_c9_no_root_validation (p a b c d e f : String)
    (h : pySplit p '/' = [a, b, c, d, e, f]) :
    parse_uc_file_path p = .ok ⟨c, d, e, f⟩ := by
  unfold parse_uc_file_path
  rw [h]
  rfl

/-- C9 witness: a six-component path whose first two components are neither empty nor
`Volumes` parses successfully. -/
theorem ocel_c9_witness :
    parse_uc_file_path "nonsense/anything/a/b/c/d.json" = .ok ⟨"a", "b", "c", "d.json"⟩ :=
  ocel_c9_no_root_validation "nonsense/anything/a/b/c/d.json"
    "nonsense" "anything" "a" "b" "c" "d.json" rfl

/-- C10: calling `set_uc_file_path` with a `file_path` and no components raises
`NameError` (the unqualified `parse_uc_file_path` is not bound at module level) before
any instance attribute is assigned, so the state comes back unchanged. -/
theorem ocel_c10_set_uc_file_path_nameerror (self : ImporterState) (fp : String) :
    set_uc_file_path self (some fp) none none none none =
      (self, some (.nameError "parse_uc_file_path")) :=
  rfl

/-- C10 witness: a freshly initialised importer given a concrete path. -/
theorem ocel_c10_witness :
    set_uc_file_path importerInit (some "/Volumes/a/b/c/d.json") none none none none =
      (importerInit, some (.nameError "parse_uc_file_path")) :=
  ocel_c10_set_uc_file_path_nameerror importerInit "/Volumes/a/b/c/d.json"
